import Mathlib

/-!
Shallow embedding of the two Express services of this repository:
`REST API/server.js` (relational, postgres) and `NosqlNodejs/index.js`
(document store).  JavaScript numbers are modelled as `ℚ` (every literal
in the source is decimal), rows as Lean structures, the database as an
in-memory `Store`, and each route handler as a function from the store and
the parsed JSON request body to an outcome (HTTP response or uncaught
exception) together with the resulting store.
-/

namespace Shop

/-- JSON-ish value, the shape of request and response bodies.
`undef` stands for JavaScript `undefined` (used for `res.json(undefined)`,
which Express serialises as an empty body with status 200). -/
inductive JVal where
  | null
  | undefinedVal
  | bool (b : Bool)
  | num (q : ℚ)
  | str (s : String)
  | arr (elems : List JVal)
  | obj (fields : List (String × JVal))

/-- Property lookup on a JSON object (`body.key`); `undef` when the key is
absent or the value is not an object, as in JavaScript. -/
def JVal.get (j : JVal) (k : String) : JVal :=
  match j with
  | .obj fields =>
      match fields.lookup k with
      | some v => v
      | none => .undefinedVal
  | _ => .undefinedVal

/-- The field list of a JSON object (empty for non-objects). -/
def JVal.objFields : JVal → List (String × JVal)
  | .obj fields => fields
  | _ => []

/-- Does a JSON object carry the given key? -/
def JVal.hasKey (j : JVal) (k : String) : Bool :=
  j.objFields.any (fun kv => kv.1 = k)

/-- Does a response body (an object, or an array of objects as returned by
the list endpoints) mention the given key? -/
def JVal.bodyMentionsKey (j : JVal) (k : String) : Bool :=
  match j with
  | .obj _ => j.hasKey k
  | .arr elems => elems.any (fun e => e.hasKey k)
  | _ => false

/-- Outcome of one request: an HTTP response, or an exception that escapes
the `async` handler (no response is produced; Express logs an unhandled
rejection). -/
inductive HOut where
  | resp (status : Nat) (body : JVal)
  | thrown (err : String)

/-- `{ message: m }` response body. -/
def jmsg (m : String) : JVal := .obj [("message", .str m)]

/-! ## Rows and the relational store (`server.js`) -/

structure Product where
  id : Nat
  name : String
  about : String
  price : ℚ
deriving Repr, DecidableEq

structure User where
  id : Nat
  name : String
  email : String
  password : String
deriving Repr, DecidableEq

structure Order where
  id : Nat
  userId : ℚ
  productId : ℚ
  quantity : ℚ
  total : ℚ
  createdAt : Nat
  updatedAt : Nat
deriving Repr, DecidableEq

structure Store where
  products : List Product
  users : List User
  orders : List Order
deriving Repr, DecidableEq

/-- Fresh serial id for an insert: one past the largest id in use. -/
def nextId (ids : List Nat) : Nat := ids.foldr max 0 + 1

def Store.nextProductId (st : Store) : Nat := nextId (st.products.map Product.id)
def Store.nextUserId (st : Store) : Nat := nextId (st.users.map User.id)
def Store.nextOrderId (st : Store) : Nat := nextId (st.orders.map Order.id)

/-- A product row as the JSON object `res.json` sends. -/
def productToJVal (p : Product) : JVal :=
  .obj [("id", .num p.id), ("name", .str p.name), ("about", .str p.about),
        ("price", .num p.price)]

/-- A user row as the JSON object `res.json` sends (`SELECT *` returns every
column, the hashed password included). -/
def userToJVal (u : User) : JVal :=
  .obj [("id", .num u.id), ("name", .str u.name), ("email", .str u.email),
        ("password", .str u.password)]

/-- An order row as the JSON object `res.json` sends. -/
def orderToJVal (o : Order) : JVal :=
  .obj [("id", .num o.id), ("userid", .num o.userId),
        ("productid", .num o.productId), ("quantity", .num o.quantity),
        ("total", .num o.total), ("createdat", .num o.createdAt),
        ("updatedat", .num o.updatedAt)]

/-! ## zod schemas (`server.js` lines 34–69)

zod object parsing: the input must be an object, each non-optional key must
be present with the declared type, unknown keys are stripped, `.positive()`
demands a strictly positive number, `.optional()` lets a key be absent or
`undefined`.  `safeParse` is modelled as `Option` of the validated record. -/

/-- `CreateProductSchema = ProductSchema.omit({ id: true })`:
name, about strings and positive price. -/
structure CreateProductData where
  name : String
  about : String
  price : ℚ
deriving Repr, DecidableEq

def CreateProductSchema.safeParse (body : JVal) : Option CreateProductData :=
  match body with
  | .obj _ =>
      match body.get "name", body.get "about", body.get "price" with
      | .str n, .str a, .num p => if 0 < p then some ⟨n, a, p⟩ else none
      | _, _, _ => none
  | _ => none

/-- `CreateUserSchema = UserSchema.omit({ id: true })`:
name, email, password strings (no format constraint on create). -/
structure CreateUserData where
  name : String
  email : String
  password : String
deriving Repr, DecidableEq

def CreateUserSchema.safeParse (body : JVal) : Option CreateUserData :=
  match body with
  | .obj _ =>
      match body.get "name", body.get "email", body.get "password" with
      | .str n, .str e, .str p => some ⟨n, e, p⟩
      | _, _, _ => none
  | _ => none

/-- Models zod's `z.string().email()` format check (external library):
one `@` with a nonempty local part and a dotted, nonempty domain. -/
def zodEmailOk (s : String) : Bool :=
  match s.splitOn "@" with
  | [lp, dom] => lp ≠ "" && dom ≠ "" && dom.contains (Char.ofNat 46)
  | _ => false

/-- `UpdateUserSchema`: every field optional; email must be email-shaped,
password at least 5 characters, when present. -/
structure UpdateUserData where
  name : Option String
  email : Option String
  password : Option String
deriving Repr, DecidableEq

/-- One optional string field of `UpdateUserSchema`: absent or `undefined`
is fine (the field stays unset); a present value must be a string passing
`ok`. -/
def parseOptionalStr (v : JVal) (ok : String → Bool) : Option (Option String) :=
  match v with
  | .undefinedVal => some none
  | .str s => if ok s then some (some s) else none
  | _ => none

def UpdateUserSchema.safeParse (body : JVal) : Option UpdateUserData :=
  match body with
  | .obj _ =>
      match parseOptionalStr (body.get "name") (fun _ => true),
            parseOptionalStr (body.get "email") zodEmailOk,
            parseOptionalStr (body.get "password") (fun s => 5 ≤ s.length) with
      | some n, some e, some p => some ⟨n, e, p⟩
      | _, _, _ => none
  | _ => none

/-- `CreateOrderSchema`: numeric userId and productId, positive quantity. -/
structure CreateOrderData where
  userId : ℚ
  productId : ℚ
  quantity : ℚ
deriving Repr, DecidableEq

def CreateOrderSchema.safeParse (body : JVal) : Option CreateOrderData :=
  match body with
  | .obj _ =>
      match body.get "userId", body.get "productId", body.get "quantity" with
      | .num u, .num p, .num q => if 0 < q then some ⟨u, p, q⟩ else none
      | _, _, _ => none
  | _ => none

/-- `UpdateOrderSchema`: every field optional, quantity positive if given. -/
structure UpdateOrderData where
  userId : Option ℚ
  productId : Option ℚ
  quantity : Option ℚ
deriving Repr, DecidableEq

/-- One optional numeric field: absent/`undefined` stays unset; a present
value must be a number passing `ok`. -/
def parseOptionalNum (v : JVal) (ok : ℚ → Bool) : Option (Option ℚ) :=
  match v with
  | .undefinedVal => some none
  | .num q => if ok q then some (some q) else none
  | _ => none

def UpdateOrderSchema.safeParse (body : JVal) : Option UpdateOrderData :=
  match body with
  | .obj _ =>
      match parseOptionalNum (body.get "userId") (fun _ => true),
            parseOptionalNum (body.get "productId") (fun _ => true),
            parseOptionalNum (body.get "quantity") (fun q => decide (0 < q)) with
      | some u, some p, some q => some ⟨u, p, q⟩
      | _, _, _ => none
  | _ => none

/-! ## Module scope of `server.js`

The identifiers bound at module scope (the five `require`s and the consts
of lines 1–69).  `bcrypt` (used at line 326) and `i` (evaluated at line
452) are not among them, so evaluating them throws a `ReferenceError`. -/

def serverModuleScope : List String :=
  ["express", "postgres", "z", "app", "port", "sql", "swaggerUi",
   "swaggerJsdoc", "options", "specs", "ProductSchema",
   "CreateProductSchema", "UserSchema", "UpdateUserSchema",
   "CreateOrderSchema", "UpdateOrderSchema", "CreateUserSchema", "getUsers"]

/-! ## POST /orders (`server.js` lines 499–529) -/

/-- The fixed tax multiplier `vatRate = 1.2` of line 515. -/
def vatRate : ℚ := 1.2

/-- The row `POST /orders` inserts for validated data `d` when the
referenced product has price `price`: a fresh serial id,
`total = price * quantity * vatRate` and `NOW()` timestamps. -/
def insertedOrder (now : Nat) (st : Store) (d : CreateOrderData) (price : ℚ) : Order :=
  { id := st.nextOrderId, userId := d.userId, productId := d.productId,
    quantity := d.quantity, total := price * d.quantity * vatRate,
    createdAt := now, updatedAt := now }

/-- `POST /orders`: validate with `CreateOrderSchema`; on failure 400;
look up the product price by `productId`; if absent 404 "Product not
found"; else insert the order with `total = price * quantity * vatRate`
and `NOW()` timestamps, and answer 201 with the inserted row. -/
def postOrders (now : Nat) (st : Store) (body : JVal) : HOut × Store :=
  match CreateOrderSchema.safeParse body with
  | none =>
      -- the zod error detail sent alongside the message is elided
      (.resp 400 (jmsg "Invalid order data"), st)
  | some d =>
      match st.products.find? (fun p => (p.id : ℚ) == d.productId) with
      | none => (.resp 404 (jmsg "Product not found"), st)
      | some p =>
          let o := insertedOrder now st d p.price
          (.resp 201 (orderToJVal o), { st with orders := st.orders ++ [o] })

/-! ## GET /products — the filtered read (`server.js` lines 98–130)

The handler collects, in order, one equality condition per truthy query
parameter (`name`, `about`, `price`), each recording the 1-based index of
its positionally bound value (`"name = $" + (conditions.length + 1)`), and
pushes the value onto `values` in the same order.  The conditions are
joined with `AND`; with no conditions the query has no `WHERE` clause. -/

/-- The query string of `GET /products`.  String parameters that are
present but empty are falsy in JavaScript and are skipped, exactly as
`if (name)` does; `price` holds the numeric value of a truthy, parseable
`price` parameter after `parseFloat`. -/
structure ProductQuery where
  name : Option String
  about : Option String
  price : Option ℚ
deriving Repr, DecidableEq

/-- A column an equality condition refers to. -/
inductive Col where
  | name
  | about
  | price
deriving Repr, DecidableEq

/-- A positionally bound SQL value. -/
inductive SqlVal where
  | s (v : String)
  | n (v : ℚ)
deriving Repr, DecidableEq

/-- The pieces the handler accumulates: `conditions` (each a column
together with the 1-based placeholder index it binds) and `values`. -/
structure QueryParts where
  conditions : List (Col × Nat)
  values : List SqlVal
deriving Repr, DecidableEq

/-- JavaScript truthiness of an optional query-string parameter. -/
def truthyStr : Option String → Bool
  | some s => s ≠ ""
  | none => false

/-- Build the conditions and values exactly as lines 101–115 do. -/
def buildQuery (q : ProductQuery) : QueryParts :=
  let c0 : List (Col × Nat) := []
  let v0 : List SqlVal := []
  let c1 := if truthyStr q.name then c0 ++ [(Col.name, c0.length + 1)] else c0
  let v1 := match q.name with
            | some s => if truthyStr q.name then v0 ++ [.s s] else v0
            | none => v0
  let c2 := if truthyStr q.about then c1 ++ [(Col.about, c1.length + 1)] else c1
  let v2 := match q.about with
            | some s => if truthyStr q.about then v1 ++ [.s s] else v1
            | none => v1
  let c3 := match q.price with
            | some _ => c2 ++ [(Col.price, c2.length + 1)]
            | none => c2
  let v3 := match q.price with
            | some p => v2 ++ [.n p]
            | none => v2
  ⟨c3, v3⟩

/-- The value a row holds in a column. -/
def Product.colVal (p : Product) : Col → SqlVal
  | .name => .s p.name
  | .about => .s p.about
  | .price => .n p.price

/-- One condition `col = $idx` holds of a row under a value list. -/
def condHolds (values : List SqlVal) (p : Product) : Col × Nat → Bool
  | (c, idx) => values.get? (idx - 1) == some (p.colVal c)

/-- The rows the assembled `SELECT` returns: those satisfying every
condition (all of them when there is no condition). -/
def matchingProducts (st : Store) (q : ProductQuery) : List Product :=
  st.products.filter (fun p => (buildQuery q).conditions.all (condHolds (buildQuery q).values p))

/-- Direct reading of the same filter: the conjunction of one equality
predicate per supplied (truthy) parameter. -/
def suppliedMatch (q : ProductQuery) (p : Product) : Bool :=
  (match q.name with
   | some s => if s ≠ "" then s == p.name else true
   | none => true) &&
  (match q.about with
   | some s => if s ≠ "" then s == p.about else true
   | none => true) &&
  (match q.price with
   | some v => v == p.price
   | none => true)

/-- `GET /products`: run the assembled query and send the row list. -/
def getProducts (st : Store) (q : ProductQuery) : HOut :=
  .resp 200 (.arr ((matchingProducts st q).map productToJVal))

/-! ## GET /products/:id and DELETE /products/:id (lines 157–166, 229–238)

Both destructure the first returned row into `product` and then test
`product.length > 0`.  A postgres.js row is a plain object: when a row was
returned, `product.length` is `undefined` and `undefined > 0` is `false`,
so the handler takes the 404 branch; when no row was returned, `product`
is `undefined` and reading `.length` throws a `TypeError`. -/

def lengthTypeErr : String :=
  "TypeError: Cannot read properties of undefined (reading length)"

/-- `GET /products/:id`. -/
def getProductById (st : Store) (id : Nat) : HOut :=
  match st.products.find? (fun p => p.id == id) with
  | some _ => .resp 404 (jmsg "Produit non trouvé")
  | none => .thrown lengthTypeErr

/-- `DELETE /products/:id`: the `DELETE ... RETURNING *` runs first, so a
matched row is removed from the table even though the response is the 404
branch; with no matched row the handler throws after the (no-op) delete. -/
def deleteProduct (st : Store) (id : Nat) : HOut × Store :=
  let rest := st.products.filter (fun p => p.id ≠ id)
  match st.products.find? (fun p => p.id == id) with
  | some _ => (.resp 404 (jmsg "Produit non trouvé"), { st with products := rest })
  | none => (.thrown lengthTypeErr, { st with products := rest })

/-! ## POST /products (lines 190–202) -/

/-- `POST /products`: validate; insert; then `res.json(product[0])`, where
`product` is already the inserted row object — its property `"0"` is
`undefined`, so the response is 200 with an empty body. -/
def postProducts (st : Store) (body : JVal) : HOut × Store :=
  match CreateProductSchema.safeParse body with
  | none => (.resp 400 (jmsg "Invalid request body"), st)
  | some d =>
      let p : Product := { id := st.nextProductId, name := d.name,
                           about := d.about, price := d.price }
      (.resp 200 .undefinedVal, { st with products := st.products ++ [p] })

/-! ## GET /users and GET /users/:id (lines 258–261, 288–296) -/

/-- zod `ZodObject.omit(mask)` keeps exactly the keys whose mask entry is
falsy (`if (!mask[key]) shape[key] = ...`). -/
def zodOmitKeeps (mask : List (String × Bool)) (key : String) : Bool :=
  match mask.lookup key with
  | some b => !b
  | none => true

/-- The mask of line 69: `getUsers = UserSchema.omit({ password: false })`.
The mask value is `false`, so `password` is kept. -/
def getUsersMask : List (String × Bool) := [("password", false)]

/-- `getUsers.parse` applied to a user row: the row restricted to the keys
the omitted schema kept. -/
def getUsersParse (u : User) : JVal :=
  .obj ((userToJVal u).objFields.filter (fun kv => zodOmitKeeps getUsersMask kv.1))

/-- `GET /users`: every row, each passed through `getUsers.parse`. -/
def getUsersHandler (st : Store) : HOut :=
  .resp 200 (.arr (st.users.map getUsersParse))

/-- `GET /users/:id`: `if (user)` — 200 with the full row, else 404. -/
def getUserById (st : Store) (id : Nat) : HOut :=
  match st.users.find? (fun u => u.id == id) with
  | some u => .resp 200 (userToJVal u)
  | none => .resp 404 (jmsg "User not found")

/-! ## POST /users (lines 322–336) -/

/-- Model of the external `bcrypt.hash(password, 10)` (never reachable:
`bcrypt` is not bound anywhere in `server.js`). -/
def bcryptHash (password : String) : String := "$2b$10$" ++ password

/-- `POST /users`: validate; then evaluate `bcrypt.hash` — `bcrypt` is not
in the module scope, so a `ReferenceError` is thrown before the insert.
The `then` branch transcribes the unreachable success path (hash, insert,
`res.json(result.data)` — note it would echo the hashed password and no
id). -/
def postUsers (st : Store) (body : JVal) : HOut × Store :=
  match CreateUserSchema.safeParse body with
  | none => (.resp 400 (jmsg "Invalid request body"), st)
  | some d =>
      if serverModuleScope.contains "bcrypt" then
        let hashed := bcryptHash d.password
        let u : User := { id := st.nextUserId, name := d.name,
                          email := d.email, password := hashed }
        (.resp 200 (.obj [("name", .str d.name), ("email", .str d.email),
                          ("password", .str hashed)]),
         { st with users := st.users ++ [u] })
      else
        (.thrown "ReferenceError: bcrypt is not defined", st)

/-! ## DELETE /users/:id (lines 364–373) -/

/-- `DELETE /users/:id`: `if (user)` — 200 with the deleted row, else
404. -/
def deleteUser (st : Store) (id : Nat) : HOut × Store :=
  let rest := st.users.filter (fun u => u.id ≠ id)
  match st.users.find? (fun u => u.id == id) with
  | some u => (.resp 200 (userToJVal u), { st with users := rest })
  | none => (.resp 404 (jmsg "User not found"), { st with users := rest })

/-! ## PUT /users/:id (lines 408–422) -/

/-- `PUT /users/:id`: validate with `CreateUserSchema`; `UPDATE ...
RETURNING *`; `res.json(user)` with the first updated row — when no row
matched, `user` is `undefined` and the response is 200 with an empty body
(there is no 404 branch). -/
def putUser (st : Store) (id : Nat) (body : JVal) : HOut × Store :=
  match CreateUserSchema.safeParse body with
  | none => (.resp 400 (jmsg "Invalid request body"), st)
  | some d =>
      let upd : User → User := fun u =>
        if u.id = id then { u with name := d.name, email := d.email,
                                   password := d.password }
        else u
      let st2 : Store := { st with users := st.users.map upd }
      match st.users.find? (fun u => u.id == id) with
      | some u => (.resp 200 (userToJVal (upd u)), st2)
      | none => (.resp 200 .undefinedVal, st2)

/-! ## PATCH /users/:id (lines 450–478) -/

/-- The effective field set of a validated partial user update: the keys
whose value is not `undefined` (the `reduce` of lines 454–459). -/
def UpdateUserData.updates (d : UpdateUserData) : List (String × String) :=
  (match d.name with | some v => [("name", v)] | none => []) ++
  (match d.email with | some v => [("email", v)] | none => []) ++
  (match d.password with | some v => [("password", v)] | none => [])

/-- Lines 453–477 of the handler — unreachable, see `patchUser`: empty
effective field set → 400; else update the present fields and send the
first updated row (`undefined`, hence an empty 200 body, when no row
matched; again no 404 branch). -/
def patchUserBody (st : Store) (id : Nat) (body : JVal) : HOut × Store :=
  match UpdateUserSchema.safeParse body with
  | none => (.resp 400 (jmsg "Invalid request body"), st)
  | some d =>
      if d.updates.length = 0 then
        (.resp 400 (jmsg "No valid fields provided for update"), st)
      else
        let upd : User → User := fun u =>
          if u.id = id then
            { u with name := (d.name.getD u.name),
                     email := (d.email.getD u.email),
                     password := (d.password.getD u.password) }
          else u
        let st2 : Store := { st with users := st.users.map upd }
        match st.users.find? (fun u => u.id == id) with
        | some u => (.resp 200 (userToJVal (upd u)), st2)
        | none => (.resp 200 .undefinedVal, st2)

/-- `PATCH /users/:id`: line 451 awaits `safeParse` (which never throws),
then line 452 is the bare statement `i;` — `i` is bound neither in the
function nor at module scope, so every request throws a `ReferenceError`
before the validation result is even inspected. -/
def patchUser (st : Store) (id : Nat) (body : JVal) : HOut × Store :=
  let _result := UpdateUserSchema.safeParse body
  if serverModuleScope.contains "i" then patchUserBody st id body
  else (.thrown "ReferenceError: i is not defined", st)

/-! ## GET /orders, GET /orders/:id, DELETE /orders/:id (lines 544–611) -/

/-- `GET /orders`: every row. -/
def getOrders (st : Store) : HOut :=
  .resp 200 (.arr (st.orders.map orderToJVal))

/-- `GET /orders/:id`: `if (order)` — 200 with the row, else 404. -/
def getOrderById (st : Store) (id : Nat) : HOut :=
  match st.orders.find? (fun o => o.id == id) with
  | some o => .resp 200 (orderToJVal o)
  | none => .resp 404 (jmsg "Order not found")

/-- `DELETE /orders/:id`: `if (order)` — 200 with the deleted row, else
404. -/
def deleteOrder (st : Store) (id : Nat) : HOut × Store :=
  let rest := st.orders.filter (fun o => o.id ≠ id)
  match st.orders.find? (fun o => o.id == id) with
  | some o => (.resp 200 (orderToJVal o), { st with orders := rest })
  | none => (.resp 404 (jmsg "Order not found"), { st with orders := rest })

/-! ## PATCH /orders/:id (lines 638–652) -/

/-- `PATCH /orders/:id`: validate with `UpdateOrderSchema` (every field
optional, and there is no empty-field-set check); then
`sql(result.data, "userId", "productId", "quantity")` names all three
columns explicitly, so any field left `undefined` makes postgres.js reject
the query (`UNDEFINED_VALUE: Undefined values are not allowed`) — the
handler has no try/catch, so that rejection escapes.  With all three
fields present the update runs and the first updated row is sent
(`undefined`, hence an empty 200 body, when no row matched; no 404
branch). -/
def patchOrder (st : Store) (id : Nat) (body : JVal) : HOut × Store :=
  match UpdateOrderSchema.safeParse body with
  | none => (.resp 400 (jmsg "Invalid request body"), st)
  | some d =>
      match d.userId, d.productId, d.quantity with
      | some uid, some pid, some qty =>
          let upd : Order → Order := fun o =>
            if o.id = id then { o with userId := uid, productId := pid,
                                       quantity := qty }
            else o
          let st2 : Store := { st with orders := st.orders.map upd }
          match st.orders.find? (fun o => o.id == id) with
          | some o => (.resp 200 (orderToJVal (upd o)), st2)
          | none => (.resp 200 .undefinedVal, st2)
      | _, _, _ =>
          (.thrown "UNDEFINED_VALUE: Undefined values are not allowed", st)

/-! ## The document-store service (`NosqlNodejs/index.js`) -/

/-- A document of the `products` collection.  MongoDB `ObjectId`s are
modelled as the 24-character hexadecimal strings they serialise to. -/
structure NProduct where
  oid : String
  name : String
  about : String
  price : ℚ
  categoryIds : List String
deriving Repr, DecidableEq

/-- The document database: the `products` collection plus the next
`ObjectId` the driver would mint. -/
structure NDb where
  products : List NProduct
  nextOid : String
deriving Repr, DecidableEq

/-- Is `s` a valid `ObjectId` argument, i.e. 24 hexadecimal characters?
`new ObjectId(id)` throws a `BSONError` otherwise. -/
def isValidOid (s : String) : Bool :=
  s.length = 24 && s.toList.all (fun c => c.isDigit || (97 ≤ c.toNat && c.toNat ≤ 102))

/-- `CreateProductSchema` of the document variant: name, about, positive
price, and an array of category-id strings. -/
structure NCreateProductData where
  name : String
  about : String
  price : ℚ
  categoryIds : List String
deriving Repr, DecidableEq

def strList? : JVal → Option (List String)
  | .arr elems =>
      elems.foldr (fun e acc =>
        match e, acc with
        | .str s, some l => some (s :: l)
        | _, _ => none) (some [])
  | _ => none

def NCreateProductSchema.safeParse (body : JVal) : Option NCreateProductData :=
  match body with
  | .obj _ =>
      match body.get "name", body.get "about", body.get "price",
            strList? (body.get "categoryIds") with
      | .str n, .str a, .num p, some cids =>
          if 0 < p then some ⟨n, a, p, cids⟩ else none
      | _, _, _, _ => none
  | _ => none

/-- Document-variant `POST /products` (lines 50–65 of `index.js`):
validate; convert each category id with `new ObjectId(id)` (throws on an
invalid id); insert; echo `_id`, `name`, `about`, `price`, `categoryIds`
back.  An `ObjectId` serialises to its hex string, so the echoed
`categoryIds` carry the submitted strings. -/
def nosqlPostProducts (db : NDb) (body : JVal) : HOut × NDb :=
  match NCreateProductSchema.safeParse body with
  | none => (.resp 400 (jmsg "validation failed"), db)
  | some d =>
      if d.categoryIds.all isValidOid then
        let p : NProduct := { oid := db.nextOid, name := d.name,
                              about := d.about, price := d.price,
                              categoryIds := d.categoryIds }
        (.resp 200 (.obj [("_id", .str db.nextOid), ("name", .str d.name),
                          ("about", .str d.about), ("price", .num d.price),
                          ("categoryIds", .arr (d.categoryIds.map .str))]),
         { db with products := db.products ++ [p] })
      else
        (.thrown "BSONError: input must be a 24 character hex string", db)

/-! ## Concrete fixtures used by witnesses and counterexamples -/

/-- The body of a response outcome (`null` when an exception escaped and no
response was produced). -/
def HOut.bodyOf : HOut → JVal
  | .resp _ b => b
  | .thrown _ => .null

def demoProduct : Product := ⟨1, "Widget", "A widget", 10⟩

def demoProduct2 : Product := ⟨2, "Gadget", "A gadget", 3⟩

def demoUser : User := ⟨1, "Alice", "alice@example.com", "storedbcrypthash"⟩

def demoOrder : Order := ⟨1, 1, 1, 2, 24, 0, 0⟩

def demoStore : Store := ⟨[demoProduct, demoProduct2], [demoUser], [demoOrder]⟩

/-- `demoStore` after its first product has been deleted. -/
def demoStoreNoP1 : Store := ⟨[demoProduct2], [demoUser], [demoOrder]⟩

def demoOrderBody : JVal :=
  .obj [("userId", .num 1), ("productId", .num 1), ("quantity", .num 2)]

def demoBadOrderBody : JVal :=
  .obj [("userId", .num 1), ("productId", .num 99), ("quantity", .num 2)]

def demoUserBody : JVal :=
  .obj [("name", .str "Bob"), ("email", .str "bob@example.com"),
        ("password", .str "hunter22")]

def demoProductBody : JVal :=
  .obj [("name", .str "Widget"), ("about", .str "A widget"), ("price", .num 5)]

def demoOrderPatchBody : JVal :=
  .obj [("userId", .num 2), ("productId", .num 1), ("quantity", .num 3)]

def demoOid : String := "65a1b2c3d4e5f60718293a4b"

def demoCatOid : String := "65a1b2c3d4e5f60718293a4c"

def demoNDb : NDb := ⟨[], demoOid⟩

def demoNBody : JVal :=
  .obj [("name", .str "Chair"), ("about", .str "Wooden"), ("price", .num 40),
        ("categoryIds", .arr [.str demoCatOid])]

/-! ## Helper lemmas -/

@[simp] theorem SqlVal.beq_str (a b : String) :
    (SqlVal.s a == SqlVal.s b) = (a == b) := by
  by_cases h : a = b
  · subst h; simp
  · have h1 : (SqlVal.s a == SqlVal.s b) = false := by simp [h]
    have h2 : (a == b) = false := by simp [h]
    rw [h1, h2]

@[simp] theorem SqlVal.beq_num (a b : ℚ) :
    (SqlVal.n a == SqlVal.n b) = (a == b) := by
  by_cases h : a = b
  · subst h; simp
  · have h1 : (SqlVal.n a == SqlVal.n b) = false := by simp [h]
    have h2 : (a == b) = false := by simp [h]
    rw [h1, h2]

/-- The conjunction of the positionally bound conditions the handler builds
coincides with the direct per-parameter equality filter: each condition
reads back exactly the value pushed for it. -/
theorem allConds_eq_suppliedMatch (q : ProductQuery) (p : Product) :
    ((buildQuery q).conditions.all (condHolds (buildQuery q).values p)) =
      suppliedMatch q p := by
  rcases q with ⟨n, a, pr⟩
  rcases n with _ | ns <;> rcases a with _ | as <;> rcases pr with _ | pv
  all_goals
    first
    | (by_cases h1 : ns = "" <;> by_cases h2 : as = "" <;>
        simp [buildQuery, truthyStr, condHolds, suppliedMatch, Product.colVal,
              h1, h2, Bool.and_assoc])
    | (by_cases h1 : ns = "" <;>
        simp [buildQuery, truthyStr, condHolds, suppliedMatch, Product.colVal,
              h1, Bool.and_assoc])
    | (by_cases h2 : as = "" <;>
        simp [buildQuery, truthyStr, condHolds, suppliedMatch, Product.colVal,
              h2, Bool.and_assoc])
    | simp [buildQuery, truthyStr, condHolds, suppliedMatch, Product.colVal,
            Bool.and_assoc]

theorem mem_matchingProducts (st : Store) (q : ProductQuery) (p : Product) :
    p ∈ matchingProducts st q ↔ p ∈ st.products ∧ suppliedMatch q p = true := by
  simp [matchingProducts, List.mem_filter, allConds_eq_suppliedMatch]

theorem matchingProducts_no_conditions (st : Store) (q : ProductQuery)
    (h : (buildQuery q).conditions = []) : matchingProducts st q = st.products := by
  simp [matchingProducts, h]

/-! ## C1 -/

/-- C1: for every order-creation request whose body passes validation and
whose productId refers to an existing product, `POST /orders` answers 201
with the inserted order, that order is appended to the store, and the
total it stores and returns is exactly `product.price * quantity * 1.2`. -/
theorem order_total_is_price_times_quantity_times_vat
    (now : Nat) (st : Store) (body : JVal) (d : CreateOrderData) (p : Product)
    (hbody : CreateOrderSchema.safeParse body = some d)
    (hprod : st.products.find? (fun r => (r.id : ℚ) == d.productId) = some p) :
    postOrders now st body =
      (.resp 201 (orderToJVal (insertedOrder now st d p.price)),
       { st with orders := st.orders ++ [insertedOrder now st d p.price] }) ∧
    (insertedOrder now st d p.price).total = p.price * d.quantity * (1.2 : ℚ) := by
  constructor
  · simp [postOrders, hbody, hprod]
  · simp [insertedOrder, vatRate]

/-- Witness for C1 at the spec example: price 10.00, quantity 2, total 24.00. -/
theorem order_total_is_price_times_quantity_times_vat_witness :
    CreateOrderSchema.safeParse demoOrderBody = some ⟨1, 1, 2⟩ ∧
    demoStore.products.find?
      (fun r => (r.id : ℚ) == (⟨1, 1, 2⟩ : CreateOrderData).productId) = some demoProduct ∧
    (postOrders 7 demoStore demoOrderBody =
      (.resp 201 (orderToJVal (insertedOrder 7 demoStore ⟨1, 1, 2⟩ demoProduct.price)),
       { demoStore with orders := demoStore.orders ++
           [insertedOrder 7 demoStore ⟨1, 1, 2⟩ demoProduct.price] }) ∧
     (insertedOrder 7 demoStore ⟨1, 1, 2⟩ demoProduct.price).total =
       demoProduct.price * (⟨1, 1, 2⟩ : CreateOrderData).quantity * (1.2 : ℚ)) ∧
    (insertedOrder 7 demoStore ⟨1, 1, 2⟩ demoProduct.price).total = 24 := by
  refine ⟨rfl, rfl,
    order_total_is_price_times_quantity_times_vat 7 demoStore demoOrderBody
      ⟨1, 1, 2⟩ demoProduct rfl rfl, ?_⟩
  norm_num [insertedOrder, vatRate, demoProduct]

/-! ## C2 -/

/-- C2: for every order-creation request whose body passes validation but
whose productId matches no product, `POST /orders` answers 404 with a
product-not-found message and leaves the store unchanged. -/
theorem postOrders_missing_product_404
    (now : Nat) (st : Store) (body : JVal) (d : CreateOrderData)
    (hbody : CreateOrderSchema.safeParse body = some d)
    (hnone : st.products.find? (fun r => (r.id : ℚ) == d.productId) = none) :
    postOrders now st body = (.resp 404 (jmsg "Product not found"), st) := by
  simp [postOrders, hbody, hnone]

/-- Witness for C2: productId 99 matches nothing in the demo store. -/
theorem postOrders_missing_product_404_witness :
    CreateOrderSchema.safeParse demoBadOrderBody = some ⟨1, 99, 2⟩ ∧
    demoStore.products.find?
      (fun r => (r.id : ℚ) == (⟨1, 99, 2⟩ : CreateOrderData).productId) = none ∧
    postOrders 7 demoStore demoBadOrderBody =
      (.resp 404 (jmsg "Product not found"), demoStore) :=
  ⟨rfl, rfl,
    postOrders_missing_product_404 7 demoStore demoBadOrderBody ⟨1, 99, 2⟩ rfl rfl⟩

/-! ## C3 -/

/-- C3 (code bug): the empty body `{}` passes both partial-update schemas
with zero effective fields, yet neither patch endpoint produces the
specified 400.  `PATCH /users/:id` throws `ReferenceError: i is not
defined` (line 452) before the empty-field-set check of lines 461–465 is
reached — `patchUserBody`, the transcription of the handler from line 453
on, does answer 400 — and `PATCH /orders/:id` has no such check at all: it
issues the update with all three columns `undefined` and the driver
rejection escapes.  In both cases the store is left unchanged. -/
theorem patch_empty_fieldset_never_400 (st : Store) (id : Nat) :
    UpdateUserSchema.safeParse (JVal.obj []) = some ⟨none, none, none⟩ ∧
    UpdateOrderSchema.safeParse (JVal.obj []) = some ⟨none, none, none⟩ ∧
    patchUser st id (JVal.obj []) =
      (.thrown "ReferenceError: i is not defined", st) ∧
    patchOrder st id (JVal.obj []) =
      (.thrown "UNDEFINED_VALUE: Undefined values are not allowed", st) ∧
    patchUserBody st id (JVal.obj []) =
      (.resp 400 (jmsg "No valid fields provided for update"), st) :=
  ⟨rfl, rfl, rfl, rfl, rfl⟩

/-! ## C4 -/

/-- C4 is false as stated: in the demo store both user read endpoints
answer with bodies carrying the stored (hashed) password —
`getUsers = UserSchema.omit({ password: false })` keeps the password
because zod `omit` drops only keys whose mask entry is truthy, and
`GET /users/:id` sends the raw row. -/
theorem user_read_exposes_password_cex :
    (getUsersHandler demoStore).bodyOf.bodyMentionsKey "password" = true ∧
    (getUserById demoStore 1).bodyOf.bodyMentionsKey "password" = true ∧
    getUserById demoStore 1 = .resp 200 (userToJVal demoUser) ∧
    demoUser.password = "storedbcrypthash" :=
  ⟨rfl, rfl, rfl, rfl⟩

/-- C4 amended: the user read endpoints return the stored password.
`GET /users` maps every row through `getUsers.parse`, whose schema keeps
the password field (the omit mask value is `false`, hence falsy, hence
kept), and `GET /users/:id` returns the full row of the matched user. -/
theorem user_reads_return_password (st : Store) (u : User) (id : Nat)
    (hu : st.users.find? (fun w => w.id == id) = some u) :
    getUsersHandler st = .resp 200 (.arr (st.users.map getUsersParse)) ∧
    (∀ w : User, ("password", JVal.str w.password) ∈ (getUsersParse w).objFields) ∧
    getUserById st id = .resp 200 (userToJVal u) ∧
    ("password", JVal.str u.password) ∈ (userToJVal u).objFields := by
  refine ⟨rfl, ?_, ?_, ?_⟩
  · intro w
    simp [getUsersParse, userToJVal, JVal.objFields, zodOmitKeeps, getUsersMask]
  · simp [getUserById, hu]
  · simp [userToJVal, JVal.objFields]

/-- Witness for the amended C4 at the demo store. -/
theorem user_reads_return_password_witness :
    demoStore.users.find? (fun w => w.id == 1) = some demoUser ∧
    (getUsersHandler demoStore =
       .resp 200 (.arr (demoStore.users.map getUsersParse)) ∧
     (∀ w : User, ("password", JVal.str w.password) ∈ (getUsersParse w).objFields) ∧
     getUserById demoStore 1 = .resp 200 (userToJVal demoUser) ∧
     ("password", JVal.str demoUser.password) ∈ (userToJVal demoUser).objFields) :=
  ⟨rfl, user_reads_return_password demoStore demoUser 1 rfl⟩

/-! ## C5 -/

/-- C5 (code bug): valid create requests do not echo the submitted fields
on the relational endpoints.  `POST /products` inserts the row but then
sends `res.json(product[0])` — indexing the row object gives `undefined`,
so the response is 200 with an empty body, echoing nothing and exposing no
identifier.  `POST /users` throws `ReferenceError: bcrypt is not defined`
before its insert.  Only the document-variant `POST /products` echoes
every submitted field and a newly minted identifier. -/
theorem create_endpoints_echo_bug :
    CreateProductSchema.safeParse demoProductBody = some ⟨"Widget", "A widget", 5⟩ ∧
    postProducts demoStore demoProductBody =
      (.resp 200 .undefinedVal,
       { demoStore with products :=
           demoStore.products ++ [⟨3, "Widget", "A widget", 5⟩] }) ∧
    CreateUserSchema.safeParse demoUserBody =
      some ⟨"Bob", "bob@example.com", "hunter22"⟩ ∧
    postUsers demoStore demoUserBody =
      (.thrown "ReferenceError: bcrypt is not defined", demoStore) ∧
    nosqlPostProducts demoNDb demoNBody =
      (.resp 200 (.obj [("_id", .str demoOid), ("name", .str "Chair"),
                        ("about", .str "Wooden"), ("price", .num 40),
                        ("categoryIds", .arr [.str demoCatOid])]),
       ⟨[⟨demoOid, "Chair", "Wooden", 40, [demoCatOid]⟩], demoOid⟩) :=
  ⟨rfl, rfl, rfl, rfl, rfl⟩

/-! ## C6 -/

/-- C6 (code bug): `GET /users/:id` and `GET /orders/:id` follow the
claimed 200/404 contract, but `GET /products/:id` has it inverted: it
tests `product.length > 0` on a row object, which is `undefined > 0`,
i.e. false — so an existing product yields 404 "Produit non trouvé", and a
missing one makes `product.length` throw a `TypeError` on `undefined`. -/
theorem read_one_product_bug :
    demoStore.products.find? (fun p => p.id == 1) = some demoProduct ∧
    getProductById demoStore 1 = .resp 404 (jmsg "Produit non trouvé") ∧
    demoStore.products.find? (fun p => p.id == 9) = none ∧
    getProductById demoStore 9 = .thrown lengthTypeErr ∧
    getUserById demoStore 1 = .resp 200 (userToJVal demoUser) ∧
    getUserById demoStore 9 = .resp 404 (jmsg "User not found") ∧
    getOrderById demoStore 1 = .resp 200 (orderToJVal demoOrder) ∧
    getOrderById demoStore 9 = .resp 404 (jmsg "Order not found") :=
  ⟨rfl, rfl, rfl, rfl, rfl, rfl, rfl, rfl⟩

/-! ## C7 -/

/-- C7 (code bug): no update endpoint returns 404 on a missing identifier.
`PUT /users/:id` with no matched row sends `res.json(user)` with `user`
undefined — a 200 with an empty body; `PATCH /users/:id` throws the `i`
ReferenceError on every request, matched or not; `PATCH /orders/:id` with
a full body and no matched row likewise answers 200 with an empty body.
The matched `PUT` case does answer 200 with the updated entity. -/
theorem update_no_match_bug :
    demoStore.users.find? (fun u => u.id == 9) = none ∧
    putUser demoStore 9 demoUserBody = (.resp 200 .undefinedVal, demoStore) ∧
    patchUser demoStore 1 (JVal.obj [("name", .str "Carol")]) =
      (.thrown "ReferenceError: i is not defined", demoStore) ∧
    demoStore.orders.find? (fun o => o.id == 9) = none ∧
    patchOrder demoStore 9 demoOrderPatchBody = (.resp 200 .undefinedVal, demoStore) ∧
    putUser demoStore 1 demoUserBody =
      (.resp 200 (userToJVal ⟨1, "Bob", "bob@example.com", "hunter22"⟩),
       ⟨demoStore.products, [⟨1, "Bob", "bob@example.com", "hunter22"⟩],
        demoStore.orders⟩) :=
  ⟨rfl, rfl, rfl, rfl, rfl, rfl⟩

/-! ## C8 -/

/-- C8 (code bug): deleting a user (and an order) twice behaves as
claimed, but `DELETE /products/:id` tests `product.length > 0` on the
returned row object: the first delete removes the row from the table yet
answers 404 "Produit non trouvé", and the second delete, with no row
returned, throws a `TypeError` instead of answering 404. -/
theorem delete_twice_bug :
    deleteProduct demoStore 1 =
      (.resp 404 (jmsg "Produit non trouvé"), demoStoreNoP1) ∧
    deleteProduct demoStoreNoP1 1 = (.thrown lengthTypeErr, demoStoreNoP1) ∧
    deleteUser demoStore 1 =
      (.resp 200 (userToJVal demoUser),
       ⟨demoStore.products, [], demoStore.orders⟩) ∧
    deleteUser ⟨demoStore.products, [], demoStore.orders⟩ 1 =
      (.resp 404 (jmsg "User not found"),
       ⟨demoStore.products, [], demoStore.orders⟩) ∧
    deleteOrder demoStore 1 =
      (.resp 200 (orderToJVal demoOrder),
       ⟨demoStore.products, demoStore.users, []⟩) ∧
    deleteOrder ⟨demoStore.products, demoStore.users, []⟩ 1 =
      (.resp 404 (jmsg "Order not found"),
       ⟨demoStore.products, demoStore.users, []⟩) :=
  ⟨rfl, rfl, rfl, rfl, rfl, rfl⟩

/-! ## C9 -/

/-- C9: `GET /products` returns exactly the rows satisfying every supplied
(truthy) equality filter, combined with logical AND through positionally
bound conditions; with no filter supplied the condition list is empty and
every row of the table is returned. -/
theorem getProducts_filter_semantics (st : Store) (q : ProductQuery) :
    getProducts st q =
      .resp 200 (.arr ((matchingProducts st q).map productToJVal)) ∧
    (∀ p : Product,
        p ∈ matchingProducts st q ↔ p ∈ st.products ∧ suppliedMatch q p = true) ∧
    ((buildQuery q).conditions = [] → matchingProducts st q = st.products) :=
  ⟨rfl, fun p => mem_matchingProducts st q p,
   fun h => matchingProducts_no_conditions st q h⟩

/-- Witness for C9: with no filters the demo store is returned whole, and
with filters name "Widget", price 10 the conjunction is the membership
criterion. -/
theorem getProducts_filter_semantics_witness :
    (buildQuery ⟨none, none, none⟩).conditions = [] ∧
    matchingProducts demoStore ⟨none, none, none⟩ = demoStore.products ∧
    (demoProduct ∈ matchingProducts demoStore ⟨some "Widget", none, some 10⟩ ↔
      demoProduct ∈ demoStore.products ∧
      suppliedMatch ⟨some "Widget", none, some 10⟩ demoProduct = true) ∧
    matchingProducts demoStore ⟨some "Widget", none, some 10⟩ = [demoProduct] :=
  ⟨rfl,
   (getProducts_filter_semantics demoStore ⟨none, none, none⟩).2.2 rfl,
   (getProducts_filter_semantics demoStore ⟨some "Widget", none, some 10⟩).2.1
     demoProduct,
   rfl⟩

/-! ## C10 -/

/-- C10: `bcrypt` is bound nowhere in `server.js`, so every `POST /users`
request whose body passes validation throws a `ReferenceError` at the
`bcrypt.hash` call, before any insert; the store is never changed by this
endpoint (for any body whatsoever), so its success branch is
unreachable. -/
theorem postUsers_bcrypt_reference_error
    (st : Store) (body : JVal) (d : CreateUserData)
    (hbody : CreateUserSchema.safeParse body = some d) :
    serverModuleScope.contains "bcrypt" = false ∧
    postUsers st body = (.thrown "ReferenceError: bcrypt is not defined", st) ∧
    (∀ b : JVal, (postUsers st b).2 = st) := by
  have hc : serverModuleScope.contains "bcrypt" = false := rfl
  have hm : "bcrypt" ∉ serverModuleScope := by decide
  refine ⟨hc, by simp [postUsers, hbody, hm], ?_⟩
  intro b
  cases h : CreateUserSchema.safeParse b <;> simp [postUsers, h, hm]

/-- Witness for C10 at a concrete valid body. -/
theorem postUsers_bcrypt_reference_error_witness :
    CreateUserSchema.safeParse demoUserBody =
      some ⟨"Bob", "bob@example.com", "hunter22"⟩ ∧
    (serverModuleScope.contains "bcrypt" = false ∧
     postUsers demoStore demoUserBody =
       (.thrown "ReferenceError: bcrypt is not defined", demoStore) ∧
     (∀ b : JVal, (postUsers demoStore b).2 = demoStore)) :=
  ⟨rfl,
   postUsers_bcrypt_reference_error demoStore demoUserBody
     ⟨"Bob", "bob@example.com", "hunter22"⟩ rfl⟩

end Shop
